import Mathlib

/-!
# WeatherPaper_V1 — verification of the wake-cycle logic

Shallow embedding of `src/firmware_arduino_esp32c3/WeatherPaper_V1/WeatherPaper_V1.ino`.

One wake cycle is one run of `setup()` from boot to deep sleep.  Deep sleep on
the ESP32 is a reboot: ordinary globals are re-initialised from their compiled
initialisers each wake, and only `RTC_DATA_ATTR` variables (`savedTemp`,
`savedHumid`, `icon`) survive.  External collaborators (WiFi stack, HTTP
transport, ArduinoJson, NTP/`getLocalTime`) are modelled at their interface
boundary: their per-cycle results are inputs of the cycle function.

Floats are modelled as rationals (assignment and equality on floats are exact,
which is all the claims use).  A C `const unsigned char *` bitmap pointer is
modelled by the inductive `IconRef`, with `IconRef.nullptr` for the null
sentinel the global `icon` is initialised to.
-/

/-- The bitmap pointers the firmware can store in the RTC global
`const unsigned char *icon` (line 145): the null sentinel plus the nine
weather bitmaps from icons.h. -/
inductive IconRef where
  | nullptr
  | clear_sky
  | few_clouds
  | scattered_clouds
  | broken_clouds
  | shower_rain
  | rain
  | thunderstorm
  | snow
  | mist
deriving DecidableEq

/-- The `RTC_DATA_ATTR` variables: the only state surviving deep sleep
(lines 129, 130, 145). -/
structure RTCState where
  savedTemp : ℚ
  savedHumid : ℤ
  icon : IconRef
deriving DecidableEq

/-- RTC memory on very first power-up: `savedTemp = 0`, `savedHumid = 0`,
`icon = nullptr` (the compiled initialisers of lines 129, 130, 145). -/
def firstBootRTC : RTCState :=
  { savedTemp := 0, savedHumid := 0, icon := IconRef.nullptr }

/-- Outcome of `deserializeJson` plus the three field extractions in
`get_weather` (lines 347-351): either a deserialization error, or the
document with its extracted `main.temp`, `main.humidity`,
`weather[0].icon` values. -/
inductive ParseOutcome where
  | err
  | ok (temp : ℚ) (humid : ℤ) (iconCode : String)
deriving DecidableEq

/-- Per-cycle result of the HTTP transport in `get_weather`: the return value
of `http.GET()` (positive = HTTP status, `<= 0` = transport error code), and
what `deserializeJson` makes of the body (consulted only when
`httpCode > 0`). -/
structure FetchEnv where
  httpCode : ℤ
  parsed : ParseOutcome
deriving DecidableEq

/-- A `struct tm` as filled by `getLocalTime` / consumed by `strftime`
(fields as in C: `tm_year` is years since 1900, `tm_mon` is 0-based). -/
structure TimeInfo where
  tm_year : ℤ
  tm_mon : ℤ
  tm_mday : ℤ
  tm_hour : ℤ
  tm_min : ℤ
  tm_sec : ℤ
deriving DecidableEq

/-- All external inputs consumed by one wake cycle. -/
structure CycleEnv where
  /-- raw `analogRead(batPin)` sample (line 201) -/
  battery_voltage : ℤ
  /-- whether `WiFi.status() == WL_CONNECTED` held at line 231 after the
  bounded retry loop -/
  wifiConnected : Bool
  /-- transport + parse outcome of `get_weather` (used only when connected) -/
  fetch : FetchEnv
  /-- result of `getLocalTime` in `get_date_and_time`: `some t` when time was
  obtained, `none` when it failed -/
  timeSync : Option TimeInfo
  /-- the value left in the local `struct tm timeinfo` when `getLocalTime`
  fails: the unsynchronised clock value written by its last `localtime_r`
  call (epoch-based), not the previous display time -/
  timeJunk : TimeInfo
deriving DecidableEq

/-- The mutable globals of the sketch visible to one cycle.  `temperature` and
`humidity` are `Option String` so that a value produced by an out-of-bounds
read (undefined behaviour) can be denoted `none`. -/
structure Globals where
  temperature : Option String
  humidity : Option String
  savedTemp : ℚ
  savedHumid : ℤ
  icon : IconRef
  date_and_time : String
  low_battery : ℤ
  connection_to_wifi_ok : Bool
deriving DecidableEq

/-- Globals as (re-)initialised at each boot (deep-sleep wake included):
compiled initialisers for ordinary globals (lines 126, 127, 133, 153, 110),
RTC contents carried over for the `RTC_DATA_ATTR` ones. -/
def bootGlobals (rtc : RTCState) : Globals :=
  { temperature := some ("")
    humidity := some ("")
    savedTemp := rtc.savedTemp
    savedHumid := rtc.savedHumid
    icon := rtc.icon
    date_and_time := "2026/02/28-18:58:13"
    low_battery := 0
    connection_to_wifi_ok := false }

/-- `LOW_THRESHOLD`: the literal 758 of line 207. -/
def LOW_THRESHOLD : ℤ := 758

/-- Lines 200-211: `low_battery = 0; if (battery_voltage < 758) low_battery = 1;`. -/
def classifyBattery (battery_voltage : ℤ) : ℤ :=
  if battery_voltage < LOW_THRESHOLD then 1 else 0

/-- Arduino `String(float, 1)`: the value rounded to one decimal digit
(dtostrf rounds half away from zero on the magnitude).  For `q = n/d` in
lowest terms the rounded magnitude is `floor(|q| * 10 + 1/2)`, computed here
as `(20 * |n| + d) / (2 * d)` in natural-number arithmetic. -/
def fmtF1 (q : ℚ) : String :=
  let sign := if q.num < 0 then "-" else ""
  let scaled : ℕ := (20 * q.num.natAbs + q.den) / (2 * q.den)
  sign ++ toString (scaled / 10) ++ "." ++ toString (scaled % 10)

/-- The icon lookup chain of `get_weather`, lines 361-381, verbatim:
nine two-code families, with `epd_bitmap_clear_sky` as the final `else`. -/
def iconFor (icon_new : String) : IconRef :=
  if icon_new = "01d" ∨ icon_new = "01n" then IconRef.clear_sky
  else if icon_new = "02d" ∨ icon_new = "02n" then IconRef.few_clouds
  else if icon_new = "03d" ∨ icon_new = "03n" then IconRef.scattered_clouds
  else if icon_new = "04d" ∨ icon_new = "04n" then IconRef.broken_clouds
  else if icon_new = "09d" ∨ icon_new = "09n" then IconRef.shower_rain
  else if icon_new = "10d" ∨ icon_new = "10n" then IconRef.rain
  else if icon_new = "11d" ∨ icon_new = "11n" then IconRef.thunderstorm
  else if icon_new = "13d" ∨ icon_new = "13n" then IconRef.snow
  else if icon_new = "50d" ∨ icon_new = "50n" then IconRef.mist
  else IconRef.clear_sky

/-- The C expression `"!" + httpCode` of lines 392-393.  `"!"` is a
`const char *` to the two bytes `'!', NUL`, and `+ httpCode` is pointer
arithmetic, not concatenation: offset 0 reads `"!"`, offset 1 reads the empty
string at the terminator, and any other offset is an out-of-bounds pointer
whose contents are undefined (`none`). -/
def bangPlus (httpCode : ℤ) : Option String :=
  if httpCode = 0 then some ("!")
  else if httpCode = 1 then some ("")
  else none

/-- `get_weather()` (lines 333-398), state transformer on the globals.
The HTTP/JSON collaborators are summarised by `env`. -/
def get_weather (env : FetchEnv) (g : Globals) : Globals :=
  if env.httpCode > 0 then
    match env.parsed with
    | ParseOutcome.err =>
        { g with temperature := some ("!JSON"), humidity := some ("!JSON") }
    | ParseOutcome.ok temperature_new humidity_new icon_new =>
        { g with
            savedTemp := temperature_new
            savedHumid := humidity_new
            icon := iconFor icon_new
            temperature := some (fmtF1 temperature_new ++ " F")
            humidity := some (toString humidity_new ++ "%") }
  else
    { g with temperature := bangPlus env.httpCode
             humidity := bangPlus env.httpCode }

/-- `strftime(buf, _, "%Y/%m/%d-%H:%M:%S", &timeinfo)`: zero-padded
calendar rendering of a `struct tm` (`%Y` = `tm_year + 1900`,
`%m` = `tm_mon + 1`). -/
def strftimeYmdHMS (t : TimeInfo) : String :=
  let pad2 : ℤ → String := fun n =>
    if n < 10 ∧ 0 ≤ n then "0" ++ toString n else toString n
  toString (t.tm_year + 1900) ++ "/" ++ pad2 (t.tm_mon + 1) ++ "/" ++
    pad2 t.tm_mday ++ "-" ++ pad2 t.tm_hour ++ ":" ++ pad2 t.tm_min ++ ":" ++
    pad2 t.tm_sec

/-- `get_date_and_time()` (lines 421-430): calls `getLocalTime(&timeinfo)`;
on failure it only prints a message, then `strftime` runs UNCONDITIONALLY,
formatting whatever `timeinfo` holds (on failure, the unsynchronised clock
value `junk` that `getLocalTime`'s last `localtime_r` wrote) into the global
buffer.  The previous buffer contents are overwritten either way. -/
def get_date_and_time (sync : Option TimeInfo) (junk : TimeInfo) : String :=
  match sync with
  | some timeinfo => strftimeYmdHMS timeinfo
  | none => strftimeYmdHMS junk

/-- Steps (3)-(5) of `setup()` (lines 194-259): battery classification, the
connectivity branch with `get_weather` / `get_date_and_time` on success, and
the saved-data fallback of lines 243-259 on failure. -/
def setup (env : CycleEnv) (g : Globals) : Globals :=
  let g := { g with low_battery := classifyBattery env.battery_voltage }
  if env.wifiConnected then
    let g := { g with connection_to_wifi_ok := true }
    let g := get_weather env.fetch g
    { g with date_and_time := get_date_and_time env.timeSync env.timeJunk }
  else
    if g.savedTemp = 0 ∧ g.savedHumid = 0 then
      { g with temperature := some ("N/A")
               humidity := some ("N/A")
               icon := IconRef.clear_sky }
    else
      { g with temperature := some (fmtF1 g.savedTemp ++ "\x60F")
               humidity := some (toString g.savedHumid ++ "%") }

/-- Everything step (6) of `setup()` (lines 264-304) hands to the display
driver for one cycle. -/
structure RenderPayload where
  /-- line 270-272: the warning bitmap is drawn iff `connection_to_wifi_ok == false` -/
  warningShown : Bool
  /-- lines 276-280: low-battery message or the default title -/
  titleText : String
  temperatureText : Option String
  humidityText : Option String
  /-- line 301: the pointer handed to `drawBitmap(18, 32, icon, 64, 64, 0)` -/
  weatherIcon : IconRef
  /-- line 285: the printed `date_and_time` buffer -/
  timestampText : String
deriving DecidableEq

/-- The render payload step (6) derives from the globals. -/
def renderOf (g : Globals) : RenderPayload :=
  { warningShown := g.connection_to_wifi_ok == false
    titleText := if g.low_battery = 1
      then "Low battery. Recharge now!"
      else "Susan\x27s Weather Station"
    temperatureText := g.temperature
    humidityText := g.humidity
    weatherIcon := g.icon
    timestampText := g.date_and_time }

/-- One whole wake cycle: boot re-initialises the globals from `rtc`,
`setup` runs with the cycle's external inputs, the payload is rendered, and
the RTC variables are what survives into the next cycle's deep-sleep wake. -/
def runCycle (rtc : RTCState) (env : CycleEnv) : RenderPayload × RTCState :=
  let g := setup env (bootGlobals rtc)
  (renderOf g, { savedTemp := g.savedTemp, savedHumid := g.savedHumid, icon := g.icon })

/-! ## Concrete cycle inputs used as witnesses and counterexamples -/

/-- Epoch-ish `struct tm` (1970/01/01-00:00:00): what the unsynchronised
clock yields when NTP never answered. -/
def tmEpoch : TimeInfo := ⟨70, 0, 1, 0, 0, 0⟩

/-- A successfully synced local time, 2025/10/11-12:34:56. -/
def tmSynced : TimeInfo := ⟨125, 9, 11, 12, 34, 56⟩

/-- Connected cycle, HTTP 200, body parses to temp 72, humidity 79,
condition code 04n, time sync succeeds. -/
def envSuccess72 : CycleEnv :=
  { battery_voltage := 2000
    wifiConnected := true
    fetch := { httpCode := 200, parsed := ParseOutcome.ok 72 79 ("04n") }
    timeSync := some tmSynced
    timeJunk := tmEpoch }

/-- Connected cycle, but `http.GET()` returns `-1`
(`HTTPC_ERROR_CONNECTION_REFUSED`); time sync also fails. -/
def envConnRefused : CycleEnv :=
  { battery_voltage := 2000
    wifiConnected := true
    fetch := { httpCode := -1, parsed := ParseOutcome.err }
    timeSync := none
    timeJunk := tmEpoch }

/-- Connected cycle, HTTP 200 and a good parse, but `getLocalTime` fails. -/
def envSyncFail : CycleEnv :=
  { battery_voltage := 2000
    wifiConnected := true
    fetch := { httpCode := 200, parsed := ParseOutcome.ok 72 79 ("01d") }
    timeSync := none
    timeJunk := tmEpoch }

/-- Connected cycle, HTTP 200, body fails `deserializeJson`. -/
def envParseFail : CycleEnv :=
  { battery_voltage := 2000
    wifiConnected := true
    fetch := { httpCode := 200, parsed := ParseOutcome.err }
    timeSync := some tmSynced
    timeJunk := tmEpoch }

/-- Cycle where the WiFi retry loop gave up. -/
def envOffline : CycleEnv :=
  { battery_voltage := 2000
    wifiConnected := false
    fetch := { httpCode := 0, parsed := ParseOutcome.err }
    timeSync := none
    timeJunk := tmEpoch }

/-- Offline cycle with a battery sample of `LOW_THRESHOLD - 1 = 757`. -/
def envOfflineLowBat : CycleEnv :=
  { battery_voltage := 757
    wifiConnected := false
    fetch := { httpCode := 0, parsed := ParseOutcome.err }
    timeSync := none
    timeJunk := tmEpoch }

/-- Connected cycle whose fetched reading is exactly temp 0.0, humidity 0,
condition code 13d (snow). -/
def envZeroFetch : CycleEnv :=
  { battery_voltage := 2000
    wifiConnected := true
    fetch := { httpCode := 200, parsed := ParseOutcome.ok 0 0 ("13d") }
    timeSync := some tmSynced
    timeJunk := tmEpoch }

/-- RTC memory after some earlier successful fetch: 72.0 F, 55 %, rain. -/
def rtcStored : RTCState := { savedTemp := 72, savedHumid := 55, icon := IconRef.rain }

/-! ## Helper lemmas about one wake cycle -/

/-- The warning bitmap is drawn exactly when the WiFi connection failed. -/
lemma runCycle_warningShown (rtc : RTCState) (env : CycleEnv) :
    (runCycle rtc env).1.warningShown = !env.wifiConnected := by
  cases hw : env.wifiConnected <;>
      simp [runCycle, setup, get_weather, bootGlobals, renderOf, hw]
  · split <;> simp
  · split
    · cases env.fetch.parsed <;> simp
    · simp

/-- The title depends only on the battery classification. -/
lemma runCycle_titleText (rtc : RTCState) (env : CycleEnv) :
    (runCycle rtc env).1.titleText =
      if classifyBattery env.battery_voltage = 1
      then ("Low battery. Recharge now!")
      else ("Susan\x27s Weather Station") := by
  cases hw : env.wifiConnected <;>
      simp [runCycle, setup, get_weather, bootGlobals, renderOf, hw]
  · split <;> simp
  · split
    · cases env.fetch.parsed <;> simp
    · simp

/-- A cycle without connectivity leaves the persisted reading unchanged. -/
lemma runCycle_rtc_offline (rtc : RTCState) (env : CycleEnv)
    (hw : env.wifiConnected = false) :
    (runCycle rtc env).2.savedTemp = rtc.savedTemp ∧
    (runCycle rtc env).2.savedHumid = rtc.savedHumid := by
  simp [runCycle, setup, get_weather, bootGlobals, renderOf, hw]
  split <;> simp

/-- A connected cycle with a positive HTTP code and a good parse stores the
parsed reading together with the icon selected from its condition code. -/
lemma runCycle_success (rtc : RTCState) (env : CycleEnv)
    (hw : env.wifiConnected = true) (hcode : 0 < env.fetch.httpCode)
    (t : ℚ) (h : ℤ) (c : String)
    (hp : env.fetch.parsed = ParseOutcome.ok t h c) :
    (runCycle rtc env).2 = { savedTemp := t, savedHumid := h, icon := iconFor c } := by
  simp [runCycle, setup, get_weather, bootGlobals, renderOf, hw, hcode, hp]

/-- A connected cycle whose `http.GET()` is non-positive leaves the persisted
reading unchanged and sets both texts to the pointer-arithmetic expression
`"!" + httpCode`. -/
lemma runCycle_netfail (rtc : RTCState) (env : CycleEnv)
    (hw : env.wifiConnected = true) (hcode : env.fetch.httpCode ≤ 0) :
    (runCycle rtc env).2.savedTemp = rtc.savedTemp ∧
    (runCycle rtc env).2.savedHumid = rtc.savedHumid ∧
    (runCycle rtc env).1.temperatureText = bangPlus env.fetch.httpCode ∧
    (runCycle rtc env).1.humidityText = bangPlus env.fetch.httpCode := by
  have hc : ¬ (0 < env.fetch.httpCode) := by omega
  simp [runCycle, setup, get_weather, bootGlobals, renderOf, hw, hc]

/-- A connected cycle with a positive HTTP code whose body fails
`deserializeJson` leaves the persisted reading unchanged and sets both texts
to the `!JSON` marker. -/
lemma runCycle_parsefail (rtc : RTCState) (env : CycleEnv)
    (hw : env.wifiConnected = true) (hcode : 0 < env.fetch.httpCode)
    (hp : env.fetch.parsed = ParseOutcome.err) :
    (runCycle rtc env).2.savedTemp = rtc.savedTemp ∧
    (runCycle rtc env).2.savedHumid = rtc.savedHumid ∧
    (runCycle rtc env).1.temperatureText = some ("!JSON") ∧
    (runCycle rtc env).1.humidityText = some ("!JSON") := by
  simp [runCycle, setup, get_weather, bootGlobals, renderOf, hw, hcode, hp]

/-- The two branches of the offline fallback (lines 243-259). -/
lemma runCycle_offline_render (rtc : RTCState) (env : CycleEnv)
    (hw : env.wifiConnected = false) :
    ((rtc.savedTemp = 0 ∧ rtc.savedHumid = 0) →
      (runCycle rtc env).1.temperatureText = some ("N/A") ∧
      (runCycle rtc env).1.humidityText = some ("N/A") ∧
      (runCycle rtc env).1.weatherIcon = IconRef.clear_sky) ∧
    (¬ (rtc.savedTemp = 0 ∧ rtc.savedHumid = 0) →
      (runCycle rtc env).1.temperatureText = some (fmtF1 rtc.savedTemp ++ "\x60F") ∧
      (runCycle rtc env).1.humidityText = some (toString rtc.savedHumid ++ "%") ∧
      (runCycle rtc env).1.weatherIcon = rtc.icon) := by
  constructor <;> intro hs <;>
    simp [runCycle, setup, get_weather, bootGlobals, renderOf, hw, hs]

/-! ## Claims -/

/-- C1: the persisted reading (`savedTemp`, `savedHumid`) is only overwritten
by values that passed JSON parse validation: when the cycle is connected, the
transport code is positive and the body parses, the persisted pair after the
cycle is exactly the freshly parsed pair; on every other outcome (no
connectivity, non-positive transport code, parse error) the persisted pair is
unchanged. -/
theorem c1_persisted_only_on_valid_parse (rtc : RTCState) (env : CycleEnv) :
    (∀ t h c, env.wifiConnected = true → 0 < env.fetch.httpCode →
      env.fetch.parsed = ParseOutcome.ok t h c →
      (runCycle rtc env).2.savedTemp = t ∧ (runCycle rtc env).2.savedHumid = h) ∧
    ((env.wifiConnected = false ∨ env.fetch.httpCode ≤ 0 ∨
        env.fetch.parsed = ParseOutcome.err) →
      (runCycle rtc env).2.savedTemp = rtc.savedTemp ∧
      (runCycle rtc env).2.savedHumid = rtc.savedHumid) := by
  constructor
  · intro t h c hw hcode hp
    rw [runCycle_success rtc env hw hcode t h c hp]
    exact ⟨rfl, rfl⟩
  · intro hfail
    cases hw : env.wifiConnected
    · exact runCycle_rtc_offline rtc env hw
    · rcases hfail with hw' | hcode | hp
      · rw [hw] at hw'; cases hw'
      · have h := runCycle_netfail rtc env hw hcode
        exact ⟨h.1, h.2.1⟩
      · by_cases hcode : 0 < env.fetch.httpCode
        · have h := runCycle_parsefail rtc env hw hcode hp
          exact ⟨h.1, h.2.1⟩
        · have h := runCycle_netfail rtc env hw (by omega)
          exact ⟨h.1, h.2.1⟩

/-- Witness for C1: a fresh successful fetch stores (72, 79); an offline
cycle over the stored state (72, 55) leaves it untouched. -/
theorem c1_witness :
    ((runCycle firstBootRTC envSuccess72).2.savedTemp = 72 ∧
     (runCycle firstBootRTC envSuccess72).2.savedHumid = 79) ∧
    ((runCycle rtcStored envOffline).2.savedTemp = 72 ∧
     (runCycle rtcStored envOffline).2.savedHumid = 55) :=
  ⟨(c1_persisted_only_on_valid_parse firstBootRTC envSuccess72).1 72 79 ("04n")
      rfl (by decide) rfl,
   (c1_persisted_only_on_valid_parse rtcStored envOffline).2 (Or.inl rfl)⟩

/-- C2: the claim says the weather icon handed to the display driver is
always a valid bitmap, never the null sentinel, and the code's own comment
(lines 260-262) agrees.  The code violates it: on a first-boot cycle where
WiFi connects but the fetch fails (transport error, or HTTP ok with a parse
error), no branch assigns `icon`, so `drawBitmap` at line 301 receives the
initial `nullptr`. -/
theorem c2_null_icon_reaches_renderer :
    (runCycle firstBootRTC envConnRefused).1.weatherIcon = IconRef.nullptr ∧
    (runCycle firstBootRTC envParseFail).1.weatherIcon = IconRef.nullptr := by
  decide

/-- C3 counterexample: on a first-boot cycle where WiFi connects, the fetch
succeeds, but time sync fails, the claim says the timestamp buffer keeps its
compiled-in placeholder `2026/02/28-18:58:13`.  Instead `strftime` runs
unconditionally and overwrites it with the formatted unsynchronised clock
(epoch time here), so the displayed timestamp is `1970/01/01-00:00:00`. -/
theorem c3_counterexample :
    (runCycle firstBootRTC envSyncFail).1.timestampText ≠ "2026/02/28-18:58:13" ∧
    (runCycle firstBootRTC envSyncFail).1.timestampText = "1970/01/01-00:00:00" := by
  decide

/-- C3 amended: the timestamp buffer is not retained.  It is not in
sleep-surviving memory, so every wake reinitialises it to the compiled-in
placeholder; on a cycle without connectivity the placeholder is displayed
(never the previous cycle's time), and on a connected cycle whose time sync
fails the buffer is overwritten with the formatted unsynchronised clock
value, independent of any earlier contents. -/
theorem c3_amended_timestamp (rtc : RTCState) (env : CycleEnv) :
    (env.wifiConnected = false →
      (runCycle rtc env).1.timestampText = "2026/02/28-18:58:13") ∧
    (env.wifiConnected = true → env.timeSync = none →
      (runCycle rtc env).1.timestampText = strftimeYmdHMS env.timeJunk) ∧
    (∀ t, env.wifiConnected = true → env.timeSync = some t →
      (runCycle rtc env).1.timestampText = strftimeYmdHMS t) := by
  refine ⟨fun hw => ?_, fun hw hs => ?_, fun t hw hs => ?_⟩
  · simp [runCycle, setup, bootGlobals, renderOf, hw]
    split <;> simp
  · simp [runCycle, setup, get_weather, get_date_and_time, bootGlobals,
      renderOf, hw, hs]
  · simp [runCycle, setup, get_weather, get_date_and_time, bootGlobals,
      renderOf, hw, hs]

/-- Witness for C3 amended: an offline cycle shows the placeholder; a
connected cycle with failed sync shows the formatted epoch clock. -/
theorem c3_amended_witness :
    (runCycle rtcStored envOffline).1.timestampText = "2026/02/28-18:58:13" ∧
    (runCycle firstBootRTC envSyncFail).1.timestampText = strftimeYmdHMS tmEpoch :=
  ⟨(c3_amended_timestamp rtcStored envOffline).1 rfl,
   (c3_amended_timestamp firstBootRTC envSyncFail).2.1 rfl rfl⟩

/-- C4: with a non-positive transport code the fetch does return without
parsing and leaves the persisted pair unchanged, but the claim's rendered
error marker is broken: `temperature = "!" + httpCode` (line 392) is C
pointer arithmetic on the two-byte literal `"!"`, so for the real error code
`-1` (connection refused) it dereferences an out-of-bounds pointer — the
texts are undefined garbage (`none` in the model), not a marker carrying the
status code such as `"!-1"`. -/
theorem c4_transport_marker_is_oob :
    ((runCycle firstBootRTC envConnRefused).2.savedTemp = firstBootRTC.savedTemp ∧
     (runCycle firstBootRTC envConnRefused).2.savedHumid = firstBootRTC.savedHumid) ∧
    (runCycle firstBootRTC envConnRefused).1.temperatureText = bangPlus (-1) ∧
    bangPlus (-1) = none ∧
    (runCycle firstBootRTC envConnRefused).1.temperatureText ≠ some ("!-1") ∧
    (runCycle firstBootRTC envConnRefused).1.humidityText = none := by
  decide

/-- C5: on a cycle that never connects, if the persisted reading is at the
all-zero sentinel the rendered texts are the literal `N/A` markers and the
icon is the default clear-sky bitmap; otherwise the texts are the persisted
values reformatted (one-decimal temperature, integer humidity) and the icon
is the persisted one — which the third part ties to the values: the single
writer stores the icon in the same step as the pair. -/
theorem c5_offline_fallback (rtc : RTCState) (env : CycleEnv)
    (hw : env.wifiConnected = false) :
    ((rtc.savedTemp = 0 ∧ rtc.savedHumid = 0) →
      (runCycle rtc env).1.temperatureText = some ("N/A") ∧
      (runCycle rtc env).1.humidityText = some ("N/A") ∧
      (runCycle rtc env).1.weatherIcon = IconRef.clear_sky) ∧
    (¬ (rtc.savedTemp = 0 ∧ rtc.savedHumid = 0) →
      (runCycle rtc env).1.temperatureText = some (fmtF1 rtc.savedTemp ++ "\x60F") ∧
      (runCycle rtc env).1.humidityText = some (toString rtc.savedHumid ++ "%") ∧
      (runCycle rtc env).1.weatherIcon = rtc.icon) ∧
    (∀ envS t h c, envS.wifiConnected = true → 0 < envS.fetch.httpCode →
      envS.fetch.parsed = ParseOutcome.ok t h c →
      (runCycle rtc envS).2 = { savedTemp := t, savedHumid := h, icon := iconFor c }) := by
  have hr := runCycle_offline_render rtc env hw
  exact ⟨hr.1, hr.2, fun envS t h c hwS hcode hp =>
    runCycle_success rtc envS hwS hcode t h c hp⟩

/-- Witness for C5: the sentinel branch on first boot, the recovery branch
over stored (72, 55, rain), and the coupled store on a successful fetch. -/
theorem c5_witness :
    ((runCycle firstBootRTC envOffline).1.temperatureText = some ("N/A") ∧
     (runCycle firstBootRTC envOffline).1.humidityText = some ("N/A") ∧
     (runCycle firstBootRTC envOffline).1.weatherIcon = IconRef.clear_sky) ∧
    ((runCycle rtcStored envOffline).1.temperatureText = some (fmtF1 72 ++ "\x60F") ∧
     (runCycle rtcStored envOffline).1.humidityText = some (toString (55 : ℤ) ++ "%") ∧
     (runCycle rtcStored envOffline).1.weatherIcon = IconRef.rain) ∧
    (runCycle rtcStored envSuccess72).2 =
      { savedTemp := 72, savedHumid := 79, icon := iconFor ("04n") } :=
  ⟨(c5_offline_fallback firstBootRTC envOffline rfl).1 (by decide),
   (c5_offline_fallback rtcStored envOffline rfl).2.1 (by decide),
   (c5_offline_fallback rtcStored envOffline rfl).2.2 envSuccess72 72 79 ("04n")
     rfl (by decide) rfl⟩

/-- C6: the condition-code-to-icon mapping is a pure total function; the day
and night variants of each of the nine documented families resolve to the
same icon selector, and every code outside the table resolves to the default
clear-sky selector. -/
theorem c6_icon_table :
    (iconFor ("01d") = iconFor ("01n") ∧ iconFor ("02d") = iconFor ("02n") ∧
     iconFor ("03d") = iconFor ("03n") ∧ iconFor ("04d") = iconFor ("04n") ∧
     iconFor ("09d") = iconFor ("09n") ∧ iconFor ("10d") = iconFor ("10n") ∧
     iconFor ("11d") = iconFor ("11n") ∧ iconFor ("13d") = iconFor ("13n") ∧
     iconFor ("50d") = iconFor ("50n")) ∧
    (∀ c, c ∉ (["01d", "01n", "02d", "02n", "03d", "03n", "04d", "04n",
        "09d", "09n", "10d", "10n", "11d", "11n", "13d", "13n",
        "50d", "50n"] : List String) → iconFor c = IconRef.clear_sky) := by
  constructor
  · decide
  · intro c hc
    simp only [List.mem_cons, List.not_mem_nil, or_false, not_or] at hc
    obtain ⟨h1, h2, h3, h4, h5, h6, h7, h8, h9, h10, h11, h12, h13, h14, h15,
      h16, h17, h18⟩ := hc
    simp [iconFor, h1, h2, h3, h4, h5, h6, h7, h8, h9, h10, h11, h12, h13,
      h14, h15, h16, h17, h18]

/-- Witness for C6: a code outside the table resolves to the default. -/
theorem c6_witness : iconFor ("99x") = IconRef.clear_sky :=
  c6_icon_table.2 ("99x") (by decide)

/-- C7: on a connected cycle whose transport succeeds but whose body fails
JSON deserialization, the persisted reading is unchanged and both rendered
texts are the `!JSON` parse-error marker, which is distinct from the `N/A`
never-populated marker. -/
theorem c7_parse_failure_marker (rtc : RTCState) (env : CycleEnv)
    (hw : env.wifiConnected = true) (hcode : 0 < env.fetch.httpCode)
    (hp : env.fetch.parsed = ParseOutcome.err) :
    (runCycle rtc env).2.savedTemp = rtc.savedTemp ∧
    (runCycle rtc env).2.savedHumid = rtc.savedHumid ∧
    (runCycle rtc env).1.temperatureText = some ("!JSON") ∧
    (runCycle rtc env).1.humidityText = some ("!JSON") ∧
    ((some ("!JSON") : Option String) ≠ some ("N/A")) := by
  have h := runCycle_parsefail rtc env hw hcode hp
  exact ⟨h.1, h.2.1, h.2.2.1, h.2.2.2, by decide⟩

/-- Witness for C7: HTTP 200 with an unparseable body over stored
(72, 55). -/
theorem c7_witness :
    (runCycle rtcStored envParseFail).2.savedTemp = 72 ∧
    (runCycle rtcStored envParseFail).2.savedHumid = 55 ∧
    (runCycle rtcStored envParseFail).1.temperatureText = some ("!JSON") ∧
    (runCycle rtcStored envParseFail).1.humidityText = some ("!JSON") ∧
    ((some ("!JSON") : Option String) ≠ some ("N/A")) :=
  c7_parse_failure_marker rtcStored envParseFail rfl (by decide) rfl

/-- C8: battery classification is a pure function of the single raw sample:
`low_battery` is set iff `raw < LOW_THRESHOLD`, and at the boundary
`raw = LOW_THRESHOLD` the classification is 0 (threshold exclusive). -/
theorem c8_battery_classifier :
    (∀ raw : ℤ, classifyBattery raw = 1 ↔ raw < LOW_THRESHOLD) ∧
    classifyBattery LOW_THRESHOLD = 0 := by
  constructor
  · intro raw
    unfold classifyBattery
    split <;> simp_all
  · decide

/-- Witness for C8: 757 classifies low, the boundary 758 does not. -/
theorem c8_witness : classifyBattery 757 = 1 ∧ classifyBattery 758 = 0 :=
  ⟨(c8_battery_classifier.1 757).mpr (by decide), c8_battery_classifier.2⟩

/-- C9: the warning glyph is drawn iff connectivity failed this cycle, the
title is the low-battery message iff the battery sample classified low, and
the two conditions are independent: a cycle with both shows both. -/
theorem c9_warning_title_independent (rtc : RTCState) (env : CycleEnv) :
    ((runCycle rtc env).1.warningShown = true ↔ env.wifiConnected = false) ∧
    ((runCycle rtc env).1.titleText = "Low battery. Recharge now!" ↔
      env.battery_voltage < LOW_THRESHOLD) ∧
    (env.wifiConnected = false → env.battery_voltage < LOW_THRESHOLD →
      (runCycle rtc env).1.warningShown = true ∧
      (runCycle rtc env).1.titleText = "Low battery. Recharge now!") := by
  have hW := runCycle_warningShown rtc env
  have hT := runCycle_titleText rtc env
  refine ⟨?_, ?_, fun h1 h2 => ⟨?_, ?_⟩⟩
  · rw [hW]; cases env.wifiConnected <;> simp
  · rw [hT]; unfold classifyBattery; split <;> simp_all
  · rw [hW, h1]; rfl
  · rw [hT]; simp [classifyBattery, h2]

/-- Witness for C9: an offline cycle with a battery sample of 757 shows both
the warning glyph and the low-battery title. -/
theorem c9_witness :
    (runCycle rtcStored envOfflineLowBat).1.warningShown = true ∧
    (runCycle rtcStored envOfflineLowBat).1.titleText = "Low battery. Recharge now!" :=
  (c9_warning_title_independent rtcStored envOfflineLowBat).2.2 rfl (by decide)

/-- C10: a successfully fetched reading of exactly temperature 0.0 and
humidity 0 is stored (the fetch also stores its icon, snow here), yet it
collides with the never-fetched sentinel: the following cycle without
connectivity renders the `N/A` markers and the default clear-sky icon
instead of the stored reading. -/
theorem c10_zero_reading_sentinel_collision :
    ((runCycle firstBootRTC envZeroFetch).2.savedTemp = 0 ∧
     (runCycle firstBootRTC envZeroFetch).2.savedHumid = 0 ∧
     (runCycle firstBootRTC envZeroFetch).2.icon = IconRef.snow) ∧
    ((runCycle (runCycle firstBootRTC envZeroFetch).2 envOffline).1.temperatureText
        = some ("N/A") ∧
     (runCycle (runCycle firstBootRTC envZeroFetch).2 envOffline).1.humidityText
        = some ("N/A") ∧
     (runCycle (runCycle firstBootRTC envZeroFetch).2 envOffline).1.weatherIcon
        = IconRef.clear_sky) := by
  decide
